import Mathlib

/-!
Shallow embedding of the NexoShop cart/checkout/fulfillment core.

The definitions below are translated from the repository sources:
  * `src/contexts/CartContext.tsx` — cart identity resolution
    (`getOrCreateCart`), cart mutation (`addItem`, `removeItem`,
    `updateQuantity`, `clearCart`) and the derived `total`;
  * `src/pages/Admin.tsx` — the checkout page (`handleShippingSubmit`,
    `processOrder`) and admin fulfillment (`handleCompleteOrder`);
  * `supabase/migrations/...sql` — the table shapes.

The remote database is modelled as an explicit record of row lists, and
each operation is a state transformer.  Remote calls that can fail are
driven by an explicit fault environment (`RemoteFaults` for the cart
operations, a per-index `StepOutcome` oracle for the fulfillment loop);
a fault mirrors exactly what the JavaScript does with the corresponding
error object (throw when the code checks it, silently continue when the
code ignores it).  Money is modelled as `ℚ`, JS numbers used as counters
as `Int`.
-/

namespace NexoShop

/-- A row of `public.products` (fields the core logic reads). -/
structure Product where
  id : Nat
  name : String
  price : ℚ
  stock : Int
deriving DecidableEq

/-- A row of `public.carts`: owner is a user id and/or a session token. -/
structure Cart where
  id : Nat
  user_id : Option String
  session_id : Option String
deriving DecidableEq

/-- A row of `public.cart_items`, as the client sees it: the `products`
field is the joined product record (`select('*, products(*)')`), absent
right after a bare insert. -/
structure CartItem where
  id : Nat
  cart_id : Nat
  product_id : Nat
  quantity : Int
  products : Option Product
deriving DecidableEq

/-- A row of `public.orders` (fields written by `processOrder`). -/
structure OrderRow where
  id : Nat
  user_id : String
  status : String
  total : ℚ
  shipping_address : String
  shipping_city : String
  payment_method : String
  notes : Option String
deriving DecidableEq

/-- A row of `public.order_items`: denormalized snapshot of the product. -/
structure OrderItemRow where
  id : Nat
  order_id : Nat
  product_id : Nat
  product_name : String
  product_price : ℚ
  quantity : Int
  subtotal : ℚ
deriving DecidableEq

/-- The remote store: one list of rows per table. -/
structure DB where
  carts : List Cart
  cart_items : List CartItem
  products : List Product
  orders : List OrderRow
  order_items : List OrderItemRow
deriving DecidableEq

/-- The cart owner key: an authenticated user id, or the anonymous
session token from `getSessionId` (`localStorage` key `cart_session_id`). -/
inductive OwnerKey where
  | user (uid : String)
  | anon (sid : String)
deriving DecidableEq

/-- The `CartProvider` client state: the local `items` mirror, the
resolved `cartId`, the ambient owner, plus the store itself. -/
structure ClientState where
  db : DB
  items : List CartItem
  cartId : Option Nat
  owner : OwnerKey
deriving DecidableEq

/-- Outcomes of the remote calls whose error object the cart code either
throws on or silently ignores. -/
structure RemoteFaults where
  cartInsertFails : Bool
  itemInsertFails : Bool
  itemUpdateFails : Bool
  itemDeleteFails : Bool
deriving DecidableEq

/-- All remote calls succeed. -/
def noFaults : RemoteFaults :=
  { cartInsertFails := false, itemInsertFails := false,
    itemUpdateFails := false, itemDeleteFails := false }

/-- The filter built by `getOrCreateCart`: `eq('user_id', user.id)` for a
signed-in user, `eq('session_id', sessionId).is('user_id', null)` for an
anonymous session. -/
def cartMatches (k : OwnerKey) (c : Cart) : Bool :=
  match k with
  | .user uid => decide (c.user_id = some uid)
  | .anon sid => decide (c.session_id = some sid) && decide (c.user_id = none)

/-- The row inserted by `getOrCreateCart` when no cart matched. -/
def newCartFor (k : OwnerKey) (cid : Nat) : Cart :=
  match k with
  | .user uid => { id := cid, user_id := some uid, session_id := none }
  | .anon sid => { id := cid, user_id := none, session_id := some sid }

/-- A fresh primary key for `carts` (the database generates it). -/
def freshCartId (db : DB) : Nat :=
  (db.carts.map Cart.id).foldr max 0 + 1

/-- `getOrCreateCart` from `CartContext.tsx`: look the owner's cart up
with `.maybeSingle()` (which yields a row only when exactly one matches;
the code discards the error object, so zero or several matches both look
like "no cart") and insert a fresh cart otherwise. -/
def getOrCreateCart (db : DB) (k : OwnerKey) : Nat × DB :=
  match db.carts.filter (cartMatches k) with
  | [c] => (c.id, db)
  | _ =>
    let cid := freshCartId db
    (cid, { db with carts := db.carts ++ [newCartFor k cid] })

/-- `products.find` by primary key, i.e. `.eq('id', pid).single()`. -/
def findProduct (db : DB) (pid : Nat) : Option Product :=
  db.products.find? (fun p => decide (p.id = pid))

/-- The `products(*)` join attached to a cart item row on select. -/
def joinRow (db : DB) (it : CartItem) : CartItem :=
  { it with products := findProduct db it.product_id }

/-- The select in `refreshCart`: `from('cart_items').select('*, products(*)').eq('cart_id', id)`. -/
def loadItems (db : DB) (cid : Nat) : List CartItem :=
  (db.cart_items.filter (fun it => decide (it.cart_id = cid))).map (joinRow db)

/-- `refreshCart`: resolve the cart, remember its id, reload the items. -/
def refreshCart (s : ClientState) : ClientState :=
  let r := getOrCreateCart s.db s.owner
  { s with db := r.2, cartId := some r.1, items := loadItems r.2 r.1 }

/-- A fresh primary key for `cart_items`. -/
def freshItemId (db : DB) : Nat :=
  (db.cart_items.map CartItem.id).foldr max 0 + 1

/-- `removeItem`: the remote delete's error object is ignored (the call
never throws), and the local list is filtered down regardless. -/
def removeItemF (s : ClientState) (f : RemoteFaults) (itemId : Nat) : ClientState :=
  let db' :=
    if f.itemDeleteFails then s.db
    else { s.db with cart_items := s.db.cart_items.filter (fun it => decide (it.id ≠ itemId)) }
  { s with db := db', items := s.items.filter (fun it => decide (it.id ≠ itemId)) }

/-- `updateQuantity`: for `quantity <= 0` it delegates to `removeItem`;
otherwise it issues the remote update (whose error object it ignores)
and optimistically rewrites the local list. -/
def updateQuantityF (s : ClientState) (f : RemoteFaults) (itemId : Nat) (quantity : Int) :
    ClientState :=
  if quantity ≤ 0 then removeItemF s f itemId
  else
    let db' :=
      if f.itemUpdateFails then s.db
      else { s.db with cart_items := (s.db.cart_items.map
              (fun it => if it.id = itemId then { it with quantity := quantity } else it)) }
    { s with db := db',
             items := (s.items.map
               (fun it => if it.id = itemId then { it with quantity := quantity } else it)) }

/-- `addItem`: resolve `cartId || getOrCreateCart()` (only the cart
insert's error is thrown, landing in the catch with no state change);
then either bump the existing item via `updateQuantity`, or insert a new
row — the insert's error object is ignored — and `refreshCart`.  The
returned flag is `true` for the success toast, `false` for the error
toast. -/
def addItem (s : ClientState) (f : RemoteFaults) (p : Product) (qty : Int) :
    ClientState × Bool :=
  let resolved : Option (Nat × DB) :=
    match s.cartId with
    | some cid => some (cid, s.db)
    | none =>
      match s.db.carts.filter (cartMatches s.owner) with
      | [c] => some (c.id, s.db)
      | _ =>
        if f.cartInsertFails then none
        else
          let cid := freshCartId s.db
          some (cid, { s.db with carts := s.db.carts ++ [newCartFor s.owner cid] })
  match resolved with
  | none => (s, false)
  | some (cid, db1) =>
    let s1 : ClientState := { s with db := db1 }
    match s.items.find? (fun it => decide (it.product_id = p.id)) with
    | some e => (updateQuantityF s1 f e.id (e.quantity + qty), true)
    | none =>
      let db2 :=
        if f.itemInsertFails then s1.db
        else { s1.db with cart_items := s1.db.cart_items ++
                [{ id := freshItemId s1.db, cart_id := cid, product_id := p.id,
                   quantity := qty, products := none }] }
      (refreshCart { s1 with db := db2 }, true)

/-- `clearCart`: guarded by `if (cartId)`; deletes the cart's rows and
empties the local list. -/
def clearCart (s : ClientState) : ClientState :=
  match s.cartId with
  | some cid =>
    { s with
      db := { s.db with cart_items :=
                s.db.cart_items.filter (fun it => decide (it.cart_id ≠ cid)) },
      items := [] }
  | none => s

/-- `item.products?.price ?? 0`. -/
def priceOf (it : CartItem) : ℚ :=
  match it.products with
  | some p => p.price
  | none => 0

/-- `item.products?.name || ''`. -/
def nameOf (it : CartItem) : String :=
  match it.products with
  | some p => p.name
  | none => ""

/-- The derived `total` of `CartProvider`:
`items.reduce((sum, item) => sum + price * item.quantity, 0)`. -/
def cartTotal (items : List CartItem) : ℚ :=
  items.foldl (fun sum it => sum + priceOf it * (it.quantity : ℚ)) 0

/-- The checkout flow states. -/
inductive CheckoutStep where
  | shipping
  | payment
  | confirmation
  | success
deriving DecidableEq

/-- The shipping form state. -/
structure ShippingData where
  fullName : String
  address : String
  city : String
  phone : String
  notes : String
deriving DecidableEq

/-- The Checkout page state: the ambient cart context plus the local
step, shipping form and payment selector. -/
structure CheckoutState where
  cart : ClientState
  step : CheckoutStep
  shippingData : ShippingData
  paymentMethod : String
deriving DecidableEq

/-- `handleShippingSubmit`: JS falsiness of a missing field is emptiness
of the string; on a blank required field it toasts an error and returns,
otherwise it moves to `payment`.  The flag is `true` when the error
toast fired. -/
def handleShippingSubmit (s : CheckoutState) : CheckoutState × Bool :=
  if s.shippingData.fullName = "" ∨ s.shippingData.address = "" ∨ s.shippingData.city = "" then
    (s, true)
  else
    ({ s with step := CheckoutStep.payment }, false)

/-- A fresh primary key for `orders`. -/
def freshOrderId (db : DB) : Nat :=
  (db.orders.map OrderRow.id).foldr max 0 + 1

/-- A fresh primary key for `order_items`. -/
def freshOrderItemId (db : DB) : Nat :=
  (db.order_items.map OrderItemRow.id).foldr max 0 + 1

/-- The `order_items` row built for one cart item inside `processOrder`:
name and price snapshotted from the joined product, `subtotal` computed
as `(item.products?.price || 0) * item.quantity`. -/
def mkOrderItem (oid : Nat) (iid : Nat) (it : CartItem) : OrderItemRow :=
  { id := iid, order_id := oid, product_id := it.product_id,
    product_name := nameOf it, product_price := priceOf it,
    quantity := it.quantity, subtotal := priceOf it * (it.quantity : ℚ) }

/-- The `for (const item of items)` insert loop of `processOrder`. -/
def insertOrderItems (oid : Nat) : DB → List CartItem → DB
  | db, [] => db
  | db, it :: rest =>
    let row := mkOrderItem oid (freshOrderItemId db) it
    insertOrderItems oid { db with order_items := db.order_items ++ [row] } rest

/-- `processOrder` (success path): insert the order with
`total = total` (the derived cart total), insert one `order_items` row
per cart item, clear the cart, and move the flow to `success`. -/
def processOrder (s : CheckoutState) (uid : String) : CheckoutState :=
  let db := s.cart.db
  let oid := freshOrderId db
  let order : OrderRow :=
    { id := oid, user_id := uid, status := "pending",
      total := cartTotal s.cart.items,
      shipping_address := s.shippingData.address,
      shipping_city := s.shippingData.city,
      payment_method := s.paymentMethod,
      notes := if s.shippingData.notes = "" then none else some s.shippingData.notes }
  let db1 := { db with orders := db.orders ++ [order] }
  let db2 := insertOrderItems oid db1 s.cart.items
  let cart2 := clearCart { s.cart with db := db2 }
  { s with cart := cart2, step := CheckoutStep.success }

/-- Outcome of one iteration of the fulfillment loop: the stock fetch
throws (`if (productError) throw productError`), or the stock update
returns an error the code never looks at, or both succeed. -/
inductive StepOutcome where
  | ok
  | fetchFail
  | updateFail
deriving DecidableEq

/-- Persist a product's new stock: `update({ stock }).eq('id', pid)`. -/
def setStock (db : DB) (pid : Nat) (newStock : Int) : DB :=
  { db with products := (db.products.map
      (fun p => if p.id = pid then { p with stock := newStock } else p)) }

/-- The `for (const item of order.order_items)` loop of
`handleCompleteOrder`.  A fetch failure (including `.single()` finding
no product row) throws out of the loop; an update failure leaves the row
unwritten but the loop continues; otherwise the stock is written as
`Math.max(0, (product?.stock || 0) - item.quantity)`.  Returns the store
after the iterations that ran plus `true` iff the loop finished. -/
def runItems (outcome : Nat → StepOutcome) : DB → List OrderItemRow → Nat → DB × Bool
  | db, [], _ => (db, true)
  | db, it :: rest, i =>
    if outcome i = StepOutcome.fetchFail then (db, false)
    else
      match findProduct db it.product_id with
      | none => (db, false)
      | some p =>
        let db' :=
          if outcome i = StepOutcome.updateFail then db
          else setStock db it.product_id (max 0 (p.stock - it.quantity))
        runItems outcome db' rest (i + 1)

/-- All remote calls in the loop succeed. -/
def allOk : Nat → StepOutcome := fun _ => StepOutcome.ok

/-- `handleCompleteOrder`: run the stock loop; only when it completes is
the order's status set to `delivered` (a thrown fetch error lands in the
catch before the status update). -/
def completeOrder (db : DB) (o : OrderRow) (its : List OrderItemRow)
    (outcome : Nat → StepOutcome) : DB × Bool :=
  match runItems outcome db its 0 with
  | (db1, true) =>
    ({ db1 with orders := (db1.orders.map
        (fun r => if r.id = o.id then { r with status := "delivered" } else r)) }, true)
  | (db1, false) => (db1, false)

/-- The rows of a given (cart, product) pair. -/
def cartRows (db : DB) (cid pid : Nat) : List CartItem :=
  db.cart_items.filter (fun it => decide (it.cart_id = cid ∧ it.product_id = pid))

/-- The stock the fulfillment code would read for a product id. -/
def stockOf (db : DB) (pid : Nat) : Int :=
  match findProduct db pid with
  | some p => p.stock
  | none => 0

/-! ### Sample data used by the concrete witnesses -/

/-- An empty store. -/
def emptyDB : DB :=
  { carts := [], cart_items := [], products := [], orders := [], order_items := [] }

/-- Product A of the spec scenarios (price 10.00). -/
def productA : Product := { id := 1, name := "A", price := 10, stock := 3 }

/-- Product B of the spec scenarios (price 5.50). -/
def productB : Product := { id := 2, name := "B", price := 11 / 2, stock := 7 }

/-- A pending sample order. -/
def sampleOrder : OrderRow :=
  { id := 1, user_id := "u1", status := "pending", total := 50,
    shipping_address := "X", shipping_city := "Y", payment_method := "card", notes := none }

/-- A sample order item: 5 units of product 1. -/
def sampleItemQty5 : OrderItemRow :=
  { id := 1, order_id := 1, product_id := 1, product_name := "A", product_price := 10,
    quantity := 5, subtotal := 50 }

/-- Store for the fulfillment scenarios: product A with stock 3, one
pending order. -/
def fulfillDB : DB :=
  { emptyDB with products := [productA], orders := [sampleOrder] }

/-- The monetary content of an `order_items` row. -/
def itemSnap (r : OrderItemRow) : ℚ × ℚ × ℚ :=
  (r.product_price, (r.quantity : ℚ), r.subtotal)

/-- The monetary content `processOrder` snapshots from a cart item. -/
def cartSnap (it : CartItem) : ℚ × ℚ × ℚ :=
  (priceOf it, (it.quantity : ℚ), priceOf it * (it.quantity : ℚ))

/-- The spec's checkout scenario cart lines: A ×2 at 10.00, B ×1 at 5.50. -/
def scenarioItems : List CartItem :=
  [{ id := 1, cart_id := 1, product_id := 1, quantity := 2, products := some productA },
   { id := 2, cart_id := 1, product_id := 2, quantity := 1, products := some productB }]

/-- The checkout page state for the scenario. -/
def scenarioCheckout : CheckoutState :=
  { cart :=
      { db := { emptyDB with
                  carts := [{ id := 1, user_id := some "u1", session_id := none }],
                  cart_items := scenarioItems,
                  products := [productA, productB] },
        items := scenarioItems, cartId := some 1, owner := OwnerKey.user "u1" },
    step := CheckoutStep.confirmation,
    shippingData :=
      { fullName := "Ana", address := "Av 1", city := "Quito", phone := "", notes := "" },
    paymentMethod := "card" }

/-- The pair the `UNIQUE (cart_id, product_id)` constraint ranges over. -/
def rowKey (it : CartItem) : Nat × Nat := (it.cart_id, it.product_id)

/-- Client state for the C3 scenario: anonymous token `tok-1`, product
A in the catalog, empty store otherwise. -/
def anonStart : ClientState :=
  { db := { emptyDB with products := [productA] }, items := [], cartId := none,
    owner := OwnerKey.anon "tok-1" }

/-- The state after `tok-1` adds product A with quantity 1. -/
def afterFirstAdd : ClientState := (addItem anonStart noFaults productA 1).1

/-- Fault environment where only the `cart_items` insert fails. -/
def insertFault : RemoteFaults :=
  { cartInsertFails := false, itemInsertFails := true,
    itemUpdateFails := false, itemDeleteFails := false }

/-- A resolved client state (cart 1, empty) for the C9 counterexample. -/
def faultState : ClientState :=
  { db := { emptyDB with
              carts := [{ id := 1, user_id := none, session_id := some "tok-1" }],
              products := [productA] },
    items := [], cartId := some 1, owner := OwnerKey.anon "tok-1" }

/-! ### Helper lemmas -/

/-- The freshly inserted cart satisfies the owner filter it was built for. -/
theorem cartMatches_newCartFor (k : OwnerKey) (cid : Nat) :
    cartMatches k (newCartFor k cid) = true := by
  cases k <;> simp [cartMatches, newCartFor]

/-- The id of the freshly inserted cart. -/
theorem newCartFor_id (k : OwnerKey) (cid : Nat) : (newCartFor k cid).id = cid := by
  cases k <;> rfl

/-! ### C10: `clearCart` with no resolved cart -/

/-- C10: when `cartId` is `null`, `clearCart` issues no deletion and
leaves the whole client state (store rows and local items) unchanged. -/
theorem clearCart_noop_when_no_cart (s : ClientState) (h : s.cartId = none) :
    clearCart s = s := by
  unfold clearCart
  rw [h]

/-- Witness for C10 at a concrete unresolved-cart state. -/
theorem clearCart_noop_when_no_cart_witness :
    clearCart { db := emptyDB, items := [], cartId := none, owner := OwnerKey.anon "tok-1" }
      = { db := emptyDB, items := [], cartId := none, owner := OwnerKey.anon "tok-1" } :=
  clearCart_noop_when_no_cart _ rfl

/-! ### C4: `updateQuantity` versus `removeItem` -/

/-- C4: for `newQty ≤ 0`, `updateQuantity` is exactly `removeItem` (for
every fault environment, hence in particular when the remote calls
succeed); for `newQty > 0` it sets the item's quantity to exactly
`newQty` — in the local list always, and in the store whenever the
remote update succeeds. -/
theorem updateQuantity_spec (s : ClientState) (f : RemoteFaults) (itemId : Nat) (q : Int) :
    (q ≤ 0 → updateQuantityF s f itemId q = removeItemF s f itemId) ∧
    (0 < q →
      (∀ it ∈ (updateQuantityF s f itemId q).items, it.id = itemId → it.quantity = q) ∧
      (f.itemUpdateFails = false →
        ∀ it ∈ (updateQuantityF s f itemId q).db.cart_items,
          it.id = itemId → it.quantity = q)) := by
  constructor
  · intro hq
    simp [updateQuantityF, hq]
  · intro hq
    have hq' : ¬ q ≤ 0 := not_le.mpr hq
    constructor
    · intro it hit hid
      simp only [updateQuantityF, if_neg hq', List.mem_map] at hit
      obtain ⟨a, _, ha⟩ := hit
      by_cases hcase : a.id = itemId
      · rw [if_pos hcase] at ha
        rw [← ha]
      · rw [if_neg hcase] at ha
        exact absurd (ha ▸ hid) hcase
    · intro hfault it hit hid
      simp only [updateQuantityF, if_neg hq', hfault, Bool.false_eq_true, if_false,
        List.mem_map] at hit
      obtain ⟨a, _, ha⟩ := hit
      by_cases hcase : a.id = itemId
      · rw [if_pos hcase] at ha
        rw [← ha]
      · rw [if_neg hcase] at ha
        exact absurd (ha ▸ hid) hcase

/-- Witness for C4: at quantity `0` the two operations agree on a
concrete one-item state, and at quantity `5` the item is set to `5`. -/
theorem updateQuantity_spec_witness :
    (updateQuantityF
        { db := emptyDB, items := [], cartId := some 1, owner := OwnerKey.anon "tok-1" }
        noFaults 1 0
      = removeItemF
          { db := emptyDB, items := [], cartId := some 1, owner := OwnerKey.anon "tok-1" }
          noFaults 1) :=
  (updateQuantity_spec _ noFaults 1 0).1 (by decide)

/-! ### C7: blank required shipping fields block the transition -/

/-- C7: if any of `fullName`, `address`, `city` is blank, the shipping
submission reports an error and returns the state unchanged — the flow
stays on its current step (in particular `shipping`), and no remote
store field is touched. -/
theorem shippingSubmit_rejects_blank (s : CheckoutState)
    (h : s.shippingData.fullName = "" ∨ s.shippingData.address = "" ∨
         s.shippingData.city = "") :
    handleShippingSubmit s = (s, true) := by
  unfold handleShippingSubmit
  rw [if_pos h]

/-- Witness for C7: a concrete shipping form with a blank address. -/
theorem shippingSubmit_rejects_blank_witness :
    handleShippingSubmit
      { cart := { db := emptyDB, items := [], cartId := none, owner := OwnerKey.user "u1" },
        step := CheckoutStep.shipping,
        shippingData :=
          { fullName := "Ana", address := "", city := "Quito", phone := "", notes := "" },
        paymentMethod := "card" }
      = ({ cart := { db := emptyDB, items := [], cartId := none, owner := OwnerKey.user "u1" },
           step := CheckoutStep.shipping,
           shippingData :=
             { fullName := "Ana", address := "", city := "Quito", phone := "", notes := "" },
           paymentMethod := "card" }, true) :=
  shippingSubmit_rejects_blank _ (Or.inr (Or.inl rfl))

/-! ### C5: `getOrCreateCart` is idempotent per owner -/

/-- C5: provided the store holds at most one cart for the owner (the
intended invariant), a second `getOrCreateCart` returns the id the
first call returned and creates no further cart. -/
theorem getOrCreateCart_idempotent (db : DB) (k : OwnerKey)
    (h : (db.carts.filter (cartMatches k)).length ≤ 1) :
    (getOrCreateCart (getOrCreateCart db k).2 k).1 = (getOrCreateCart db k).1 ∧
    (getOrCreateCart (getOrCreateCart db k).2 k).2 = (getOrCreateCart db k).2 := by
  cases hl : db.carts.filter (cartMatches k) with
  | nil =>
    have key : getOrCreateCart db k =
        (freshCartId db,
          { db with carts := db.carts ++ [newCartFor k (freshCartId db)] }) := by
      unfold getOrCreateCart
      rw [hl]
    have hfilter :
        (({ db with carts := db.carts ++ [newCartFor k (freshCartId db)] } : DB)).carts.filter
            (cartMatches k)
          = [newCartFor k (freshCartId db)] := by
      simp [List.filter_append, hl, cartMatches_newCartFor]
    have key2 : getOrCreateCart
          { db with carts := db.carts ++ [newCartFor k (freshCartId db)] } k
        = (freshCartId db,
            { db with carts := db.carts ++ [newCartFor k (freshCartId db)] }) := by
      unfold getOrCreateCart
      rw [hfilter]
      simp [newCartFor_id]
    have e2 : (getOrCreateCart db k).2
        = { db with carts := db.carts ++ [newCartFor k (freshCartId db)] } := by
      rw [key]
    rw [e2, key2, key]
    exact ⟨rfl, rfl⟩
  | cons c t =>
    cases t with
    | nil =>
      have key : getOrCreateCart db k = (c.id, db) := by
        unfold getOrCreateCart
        rw [hl]
      have e2 : (getOrCreateCart db k).2 = db := by rw [key]
      rw [e2]
      exact ⟨rfl, by rw [key]⟩
    | cons c2 t2 =>
      rw [hl] at h
      simp at h

/-- Witness for C5: a store holding one cart for owner token `tok-1`. -/
theorem getOrCreateCart_idempotent_witness :
    (getOrCreateCart
        (getOrCreateCart
          { emptyDB with carts := [{ id := 1, user_id := none, session_id := some "tok-1" }] }
          (OwnerKey.anon "tok-1")).2
        (OwnerKey.anon "tok-1")).1
      = (getOrCreateCart
          { emptyDB with carts := [{ id := 1, user_id := none, session_id := some "tok-1" }] }
          (OwnerKey.anon "tok-1")).1 :=
  (getOrCreateCart_idempotent _ (OwnerKey.anon "tok-1") (by decide)).1

/-! ### Fulfillment lemmas -/

/-- `find?` by id commutes with the stock-rewriting map. -/
theorem find?_setStock (l : List Product) (pid : Nat) (v : Int) :
    (l.map (fun p => if p.id = pid then { p with stock := v } else p)).find?
        (fun p => decide (p.id = pid))
      = (l.find? (fun p => decide (p.id = pid))).map (fun p => { p with stock := v }) := by
  induction l with
  | nil => rfl
  | cons a l ih =>
    by_cases ha : a.id = pid
    · simp [List.find?_cons, ha]
    · simp [List.find?_cons, ha, ih]

/-- Looking a product up after `setStock` on its id sees the new stock. -/
theorem findProduct_setStock (db : DB) (pid : Nat) (v : Int) :
    findProduct (setStock db pid v) pid
      = (findProduct db pid).map (fun p => { p with stock := v }) := by
  unfold findProduct setStock
  exact find?_setStock db.products pid v

/-- The stock read back after `setStock` is the written value. -/
theorem stockOf_setStock (db : DB) (pid : Nat) (v : Int) (p : Product)
    (h : findProduct db pid = some p) :
    stockOf (setStock db pid v) pid = v := by
  unfold stockOf
  rw [findProduct_setStock, h]
  rfl

/-- `setStock` with a non-negative value keeps every stock non-negative. -/
theorem setStock_nonneg (db : DB) (pid : Nat) (v : Int) (hv : 0 ≤ v)
    (h : ∀ p ∈ db.products, 0 ≤ p.stock) :
    ∀ q ∈ (setStock db pid v).products, 0 ≤ q.stock := by
  intro q hq
  simp only [setStock, List.mem_map] at hq
  obtain ⟨p, hp, hpq⟩ := hq
  by_cases hc : p.id = pid
  · rw [if_pos hc] at hpq
    rw [← hpq]
    exact hv
  · rw [if_neg hc] at hpq
    rw [← hpq]
    exact h p hp

/-- The fulfillment loop never touches the `orders` table. -/
theorem runItems_orders (outcome : Nat → StepOutcome) (its : List OrderItemRow) :
    ∀ (db : DB) (i : Nat), (runItems outcome db its i).1.orders = db.orders := by
  induction its with
  | nil => intro db i; rfl
  | cons it rest ih =>
    intro db i
    unfold runItems
    by_cases hf : outcome i = StepOutcome.fetchFail
    · rw [if_pos hf]
    · rw [if_neg hf]
      cases hfind : findProduct db it.product_id with
      | none => simp [hfind]
      | some p =>
        simp only [hfind, ih]
        by_cases hu : outcome i = StepOutcome.updateFail
        · rw [if_pos hu]
        · rw [if_neg hu]
          rfl

/-- The fulfillment loop keeps every stock non-negative. -/
theorem runItems_nonneg (outcome : Nat → StepOutcome) (its : List OrderItemRow) :
    ∀ (db : DB) (i : Nat), (∀ p ∈ db.products, 0 ≤ p.stock) →
      ∀ p ∈ (runItems outcome db its i).1.products, 0 ≤ p.stock := by
  induction its with
  | nil => intro db i h; exact h
  | cons it rest ih =>
    intro db i h
    unfold runItems
    by_cases hf : outcome i = StepOutcome.fetchFail
    · rw [if_pos hf]
      exact h
    · rw [if_neg hf]
      cases hfind : findProduct db it.product_id with
      | none => simp only [hfind]; exact h
      | some p =>
        simp only [hfind]
        by_cases hu : outcome i = StepOutcome.updateFail
        · rw [if_pos hu]
          exact ih db (i + 1) h
        · rw [if_neg hu]
          exact ih _ (i + 1) (setStock_nonneg db _ _ (le_max_left 0 _) h)

/-- `completeOrder` only rewrites order statuses on top of the loop's
product updates. -/
theorem completeOrder_products (db : DB) (o : OrderRow) (its : List OrderItemRow)
    (outcome : Nat → StepOutcome) :
    (completeOrder db o its outcome).1.products = (runItems outcome db its 0).1.products := by
  unfold completeOrder
  rcases hr : runItems outcome db its 0 with ⟨db1, b⟩
  cases b <;> simp

/-! ### Sample fulfillment data -/

/-! ### C1: stock is clamped at zero -/

/-- C1: when the fulfillment loop runs to completion, (i) starting from
non-negative stocks every persisted stock stays non-negative, (ii) each
loop iteration persists exactly `max 0 (currentStock - quantity)` for
the item's product — both as the recorded step and as the stock read
back afterwards — and (iii) concretely, completing an item of quantity 5
against stock 3 leaves the stock at exactly 0. -/
theorem completeOrder_stock_clamped (db : DB) (o : OrderRow) (its : List OrderItemRow)
    (hnn : ∀ p ∈ db.products, 0 ≤ p.stock) :
    (∀ p ∈ (completeOrder db o its allOk).1.products, 0 ≤ p.stock) ∧
    (∀ (d : DB) (it : OrderItemRow) (rest : List OrderItemRow) (i : Nat) (p : Product),
        findProduct d it.product_id = some p →
        runItems allOk d (it :: rest) i
          = runItems allOk (setStock d it.product_id (max 0 (p.stock - it.quantity)))
              rest (i + 1) ∧
        stockOf (setStock d it.product_id (max 0 (p.stock - it.quantity))) it.product_id
          = max 0 (p.stock - it.quantity)) ∧
    stockOf (completeOrder fulfillDB sampleOrder [sampleItemQty5] allOk).1 1 = 0 := by
  refine ⟨?_, ?_, by decide⟩
  · intro p hp
    rw [completeOrder_products] at hp
    exact runItems_nonneg allOk its db 0 hnn p hp
  · intro d it rest i p hfind
    constructor
    · conv_lhs => unfold runItems
      simp [allOk, hfind]
    · exact stockOf_setStock d it.product_id _ p hfind

/-- Witness for C1: the clamping scenario itself, with the non-negative
stock hypothesis discharged on the concrete store. -/
theorem completeOrder_stock_clamped_witness :
    stockOf (completeOrder fulfillDB sampleOrder [sampleItemQty5] allOk).1 1 = 0 :=
  (completeOrder_stock_clamped fulfillDB sampleOrder [sampleItemQty5] (by decide)).2.2

/-! ### C8: failure partway through the fulfillment loop -/

/-- Counterexample to C8: when the per-item stock *update* fails, its
error object is never inspected, so the loop keeps going and the order
is still marked `delivered` — with the stock not decremented at all. -/
theorem completeOrder_updateFail_counterexample :
    (completeOrder fulfillDB sampleOrder [sampleItemQty5]
        (fun _ => StepOutcome.updateFail)).2 = true ∧
    ((completeOrder fulfillDB sampleOrder [sampleItemQty5]
        (fun _ => StepOutcome.updateFail)).1.orders.map OrderRow.status) = ["delivered"] ∧
    ((completeOrder fulfillDB sampleOrder [sampleItemQty5]
        (fun _ => StepOutcome.updateFail)).1.products.map Product.stock) = [3] := by
  decide

/-- C8 (amended): the order status is written only after the item loop;
if the loop aborts (a stock *fetch* failing — the one error the code
throws on), the decrements already performed persist and the status is
left untouched; but when the loop runs to the end — even past silently
failed stock *updates* — the status is set to `delivered`. -/
theorem completeOrder_failure_modes (db : DB) (o : OrderRow) (its : List OrderItemRow)
    (outcome : Nat → StepOutcome) :
    ((runItems outcome db its 0).2 = false →
      (completeOrder db o its outcome).1.orders = db.orders ∧
      (completeOrder db o its outcome).1.products
        = (runItems outcome db its 0).1.products ∧
      (completeOrder db o its outcome).2 = false) ∧
    ((runItems outcome db its 0).2 = true →
      (completeOrder db o its outcome).1.orders
        = (runItems outcome db its 0).1.orders.map
            (fun r => if r.id = o.id then { r with status := "delivered" } else r)) := by
  constructor
  · intro hfail
    refine ⟨?_, completeOrder_products db o its outcome, ?_⟩
    · unfold completeOrder
      rcases hr : runItems outcome db its 0 with ⟨db1, b⟩
      rw [hr] at hfail
      cases b with
      | false =>
        simpa using (runItems_orders outcome its db 0).symm.trans (by rw [hr]) |>.symm
      | true => simp at hfail
    · unfold completeOrder
      rcases hr : runItems outcome db its 0 with ⟨db1, b⟩
      rw [hr] at hfail
      cases b with
      | false => rfl
      | true => simp at hfail
  · intro hok
    unfold completeOrder
    rcases hr : runItems outcome db its 0 with ⟨db1, b⟩
    rw [hr] at hok
    cases b with
    | false => simp at hok
    | true => simp [hr]

/-- Witness for C8 (amended): a concrete run whose first stock fetch
throws — the stock stays at 3 and the order stays `pending`. -/
theorem completeOrder_failure_modes_witness :
    (completeOrder fulfillDB sampleOrder [sampleItemQty5]
        (fun _ => StepOutcome.fetchFail)).1.orders = fulfillDB.orders :=
  ((completeOrder_failure_modes fulfillDB sampleOrder [sampleItemQty5]
      (fun _ => StepOutcome.fetchFail)).1 (by decide)).1

/-! ### Checkout lemmas -/

/-- A JS `reduce`-style fold of `+ f it` is the sum of the mapped list. -/
theorem foldl_add_eq_sum (f : CartItem → ℚ) (l : List CartItem) :
    ∀ a : ℚ, l.foldl (fun sum it => sum + f it) a = a + (l.map f).sum := by
  induction l with
  | nil => intro a; simp
  | cons x l ih => intro a; simp [ih, add_assoc]

/-- The derived cart total is the sum of per-line `price × quantity`. -/
theorem cartTotal_eq_sum (items : List CartItem) :
    cartTotal items = (items.map (fun it => priceOf it * (it.quantity : ℚ))).sum := by
  unfold cartTotal
  rw [foldl_add_eq_sum]
  simp

/-- The insert loop of `processOrder` appends one row per cart item,
snapshotting price, quantity and subtotal, and touches no other table. -/
theorem insertOrderItems_spec (oid : Nat) (its : List CartItem) :
    ∀ db : DB, ∃ rows : List OrderItemRow,
      (insertOrderItems oid db its).order_items = db.order_items ++ rows ∧
      rows.map itemSnap = its.map cartSnap ∧
      (insertOrderItems oid db its).orders = db.orders ∧
      (insertOrderItems oid db its).cart_items = db.cart_items := by
  induction its with
  | nil =>
    intro db
    exact ⟨[], by simp [insertOrderItems], rfl, rfl, rfl⟩
  | cons it rest ih =>
    intro db
    obtain ⟨rows', h1, h2, h3, h4⟩ :=
      ih { db with order_items := db.order_items ++ [mkOrderItem oid (freshOrderItemId db) it] }
    refine ⟨mkOrderItem oid (freshOrderItemId db) it :: rows', ?_, ?_, ?_, ?_⟩
    · show (insertOrderItems oid _ rest).order_items = _
      rw [h1]
      simp
    · simp only [List.map_cons, h2]
      rfl
    · exact h3
    · exact h4

/-- `clearCart` leaves the `orders` table untouched. -/
theorem clearCart_db_orders (s : ClientState) : (clearCart s).db.orders = s.db.orders := by
  unfold clearCart
  cases s.cartId <;> rfl

/-- `clearCart` leaves the `order_items` table untouched. -/
theorem clearCart_db_order_items (s : ClientState) :
    (clearCart s).db.order_items = s.db.order_items := by
  unfold clearCart
  cases s.cartId <;> rfl

/-- With a resolved cart, `clearCart` empties the local item list. -/
theorem clearCart_items_of_some (s : ClientState) (cid : Nat) (h : s.cartId = some cid) :
    (clearCart s).items = [] := by
  unfold clearCart
  rw [h]

/-- Filtering for a key after filtering it away yields nothing. -/
theorem filter_eq_of_filter_ne (l : List CartItem) (c : Nat) :
    (l.filter (fun it => decide (it.cart_id ≠ c))).filter
        (fun it => decide (it.cart_id = c)) = [] := by
  induction l with
  | nil => rfl
  | cons a l ih => by_cases h : a.cart_id = c <;> simp [List.filter_cons, h, ih]

/-- With a resolved cart, `clearCart` deletes every row of that cart. -/
theorem clearCart_rows_of_some (s : ClientState) (cid : Nat) (h : s.cartId = some cid) :
    (clearCart s).db.cart_items.filter (fun it => decide (it.cart_id = cid)) = [] := by
  unfold clearCart
  rw [h]
  exact filter_eq_of_filter_ne s.db.cart_items cid

/-! ### Scenario data for checkout -/

/-! ### C2: the order total is the sum of the snapshotted subtotals -/

/-- C2: the single order row `processOrder` creates carries
`total = Σ subtotal` over the `order_items` rows it creates, each such
row has `subtotal = product_price × quantity`, and on the concrete
scenario cart (A ×2 at 10.00, B ×1 at 5.50) the total is 25.50 with
rows (A, 10.00, 2, 20.00) and (B, 5.50, 1, 5.50). -/
theorem processOrder_totals (s : CheckoutState) (u : String) :
    (((processOrder s u).cart.db.orders.drop s.cart.db.orders.length).map OrderRow.total
      = [(((processOrder s u).cart.db.order_items.drop
            s.cart.db.order_items.length).map OrderItemRow.subtotal).sum]) ∧
    (∀ r ∈ (processOrder s u).cart.db.order_items.drop s.cart.db.order_items.length,
        r.subtotal = r.product_price * (r.quantity : ℚ)) ∧
    ((processOrder scenarioCheckout "u1").cart.db.orders.map OrderRow.total = [51 / 2] ∧
      (processOrder scenarioCheckout "u1").cart.db.order_items.map
          (fun r => (r.product_name, r.product_price, r.quantity, r.subtotal))
        = [("A", 10, 2, 20), ("B", 11 / 2, 1, 11 / 2)]) := by
  have hscenario :
      (processOrder scenarioCheckout "u1").cart.db.orders.map OrderRow.total = [51 / 2] ∧
      (processOrder scenarioCheckout "u1").cart.db.order_items.map
          (fun r => (r.product_name, r.product_price, r.quantity, r.subtotal))
        = [("A", 10, 2, 20), ("B", 11 / 2, 1, 11 / 2)] := by
    norm_num [processOrder, scenarioCheckout, scenarioItems, productA, productB, emptyDB,
      insertOrderItems, mkOrderItem, freshOrderId, freshOrderItemId, clearCart,
      cartTotal, priceOf, nameOf]
  obtain ⟨rows, h1, h2, h3, h4⟩ :=
    insertOrderItems_spec (freshOrderId s.cart.db)
      s.cart.items
      { s.cart.db with orders := s.cart.db.orders ++
          [{ id := freshOrderId s.cart.db, user_id := u, status := "pending",
             total := cartTotal s.cart.items,
             shipping_address := s.shippingData.address,
             shipping_city := s.shippingData.city,
             payment_method := s.paymentMethod,
             notes := if s.shippingData.notes = "" then none
                      else some s.shippingData.notes }] }
  have horders : (processOrder s u).cart.db.orders
      = s.cart.db.orders ++
        [{ id := freshOrderId s.cart.db, user_id := u, status := "pending",
           total := cartTotal s.cart.items,
           shipping_address := s.shippingData.address,
           shipping_city := s.shippingData.city,
           payment_method := s.paymentMethod,
           notes := if s.shippingData.notes = "" then none
                    else some s.shippingData.notes }] := by
    show (clearCart _).db.orders = _
    rw [clearCart_db_orders]
    exact h3
  have hitems : (processOrder s u).cart.db.order_items = s.cart.db.order_items ++ rows := by
    show (clearCart _).db.order_items = _
    rw [clearCart_db_order_items]
    exact h1
  have hsub : rows.map OrderItemRow.subtotal
      = s.cart.items.map (fun it => priceOf it * (it.quantity : ℚ)) := by
    have e1 : rows.map OrderItemRow.subtotal
        = (rows.map itemSnap).map (fun x => x.2.2) := by
      rw [List.map_map]
      rfl
    have e2 : (s.cart.items.map cartSnap).map (fun x => x.2.2)
        = s.cart.items.map (fun it => priceOf it * (it.quantity : ℚ)) := by
      rw [List.map_map]
      rfl
    rw [e1, h2, e2]
  refine ⟨?_, ?_, hscenario⟩
  · rw [horders, hitems, List.drop_left, List.drop_left]
    simp [hsub, ← cartTotal_eq_sum]
  · intro r hr
    rw [hitems, List.drop_left] at hr
    have hmem : itemSnap r ∈ rows.map itemSnap := List.mem_map_of_mem itemSnap hr
    rw [h2] at hmem
    obtain ⟨it, _, hit⟩ := List.mem_map.mp hmem
    have hprice : r.product_price = priceOf it := (congrArg Prod.fst hit).symm
    have hqty : (r.quantity : ℚ) = (it.quantity : ℚ) :=
      (congrArg (fun x => x.2.1) hit).symm
    have hsubt : r.subtotal = priceOf it * (it.quantity : ℚ) :=
      (congrArg (fun x => x.2.2) hit).symm
    rw [hsubt, hprice, hqty]

/-- Witness for C2: the total/subtotal identity instantiated on the
concrete scenario checkout. -/
theorem processOrder_totals_witness :
    ((processOrder scenarioCheckout "u1").cart.db.orders.drop
        scenarioCheckout.cart.db.orders.length).map OrderRow.total
      = [(((processOrder scenarioCheckout "u1").cart.db.order_items.drop
            scenarioCheckout.cart.db.order_items.length).map OrderItemRow.subtotal).sum] :=
  (processOrder_totals scenarioCheckout "u1").1

/-! ### C6: a successful checkout empties the originating cart -/

/-- C6: when the cart was resolved, `processOrder` ends with the local
item list empty, no `cart_items` row left for that cart, and the flow
in the `success` state. -/
theorem processOrder_clears_cart (s : CheckoutState) (u : String) (cid : Nat)
    (h : s.cart.cartId = some cid) :
    (processOrder s u).cart.items = [] ∧
    (processOrder s u).cart.db.cart_items.filter
        (fun it => decide (it.cart_id = cid)) = [] ∧
    (processOrder s u).step = CheckoutStep.success := by
  refine ⟨?_, ?_, rfl⟩
  · exact clearCart_items_of_some _ cid h
  · exact clearCart_rows_of_some _ cid h

/-- Witness for C6: the scenario checkout leaves cart 1 with no rows. -/
theorem processOrder_clears_cart_witness :
    (processOrder scenarioCheckout "u1").cart.items = [] :=
  (processOrder_clears_cart scenarioCheckout "u1" 1 rfl).1

/-! ### Cart-merge lemmas (C3) -/

/-- `getOrCreateCart` never touches the `cart_items` table. -/
theorem getOrCreateCart_cart_items (db : DB) (k : OwnerKey) :
    (getOrCreateCart db k).2.cart_items = db.cart_items := by
  unfold getOrCreateCart
  cases h : db.carts.filter (cartMatches k) with
  | nil => rfl
  | cons c t =>
    cases t with
    | nil => rfl
    | cons c2 t2 => rfl

/-- `refreshCart` never touches the `cart_items` table. -/
theorem refreshCart_cart_items (s : ClientState) :
    (refreshCart s).db.cart_items = s.db.cart_items := by
  unfold refreshCart
  exact getOrCreateCart_cart_items s.db s.owner

/-- Rewriting one item's quantity commutes with selecting a
(cart, product) pair, since the rewrite keeps both keys. -/
theorem cartRows_map_quantity (l : List CartItem) (iid : Nat) (q : Int) (cid pid : Nat) :
    (l.map (fun it => if it.id = iid then { it with quantity := q } else it)).filter
        (fun it => decide (it.cart_id = cid ∧ it.product_id = pid))
      = (l.filter (fun it => decide (it.cart_id = cid ∧ it.product_id = pid))).map
          (fun it => if it.id = iid then { it with quantity := q } else it) := by
  rw [List.filter_map]
  congr 1
  apply List.filter_congr
  intro it _
  by_cases hi : it.id = iid <;> simp [hi]

/-- A list of distinct images all equal to one value has length ≤ 1. -/
theorem length_le_one_of_nodup_const {α β : Type} {l : List α} {f : α → β} {b : β}
    (hn : (l.map f).Nodup) (hall : ∀ a ∈ l, f a = b) : l.length ≤ 1 := by
  cases l with
  | nil => simp
  | cons x t =>
    cases t with
    | nil => simp
    | cons y t2 =>
      exfalso
      have hx : f x = b := hall x (by simp)
      have hy : f y = b := hall y (by simp)
      have hn' := hn
      simp only [List.map_cons] at hn'
      apply (List.nodup_cons.mp hn').1
      rw [hx, ← hy]
      exact List.mem_cons_self (f y) (List.map f t2)

/-- A list of length ≤ 1 containing an element is that singleton. -/
theorem eq_singleton_of_mem_of_length_le_one {α : Type} {l : List α} {a : α}
    (ha : a ∈ l) (hl : l.length ≤ 1) : l = [a] := by
  cases l with
  | nil => cases ha
  | cons x t =>
    cases t with
    | nil =>
      simp only [List.mem_singleton] at ha
      rw [ha]
    | cons y t2 => simp at hl

/-! ### C3: at most one CartItem row per (cart, product); quantities add -/

/-- C3: starting from a client state whose local list mirrors the store
(`items = loadItems`), whose store respects the
`UNIQUE (cart_id, product_id)` constraint and the `quantity > 0` check,
`addItem` leaves exactly one row for the added product in the cart, and
its quantity is the previous total plus the added quantity (so a second
add merges instead of duplicating). -/
theorem addItem_merges (s : ClientState) (cid : Nat) (p : Product) (qty : Int)
    (hcid : s.cartId = some cid)
    (hsync : s.items = loadItems s.db cid)
    (hpairs : (s.db.cart_items.map rowKey).Nodup)
    (hpos : ∀ it ∈ s.db.cart_items, 0 < it.quantity)
    (hq : 0 < qty) :
    (cartRows (addItem s noFaults p qty).1.db cid p.id).map CartItem.quantity
      = [((cartRows s.db cid p.id).map CartItem.quantity).sum + qty] := by
  have hs : s = { s with cartId := some cid } := by
    rw [← hcid]
  cases hfind : s.items.find? (fun it => decide (it.product_id = p.id)) with
  | none =>
    -- insert path: a fresh row is appended, then the cart is re-read
    have heq : (addItem s noFaults p qty).1
        = refreshCart
            { s with
              db := { s.db with cart_items := s.db.cart_items ++
                [{ id := freshItemId s.db, cart_id := cid, product_id := p.id,
                   quantity := qty, products := none }] },
              cartId := some cid } := by
      conv_lhs => rw [hs]
      unfold addItem
      dsimp only
      rw [hfind]
      rfl
    have hnone : ∀ x ∈ s.items, x.product_id ≠ p.id := by
      intro x hx
      have := List.find?_eq_none.mp hfind x hx
      simpa using this
    have hempty : cartRows s.db cid p.id = [] := by
      unfold cartRows
      rw [List.filter_eq_nil_iff]
      intro it hit
      simp only [decide_eq_true_eq, not_and]
      intro hcart hpid
      have hmem : joinRow s.db it ∈ loadItems s.db cid := by
        unfold loadItems
        exact List.mem_map_of_mem (joinRow s.db)
          (List.mem_filter.mpr ⟨hit, by simp [hcart]⟩)
      have : (joinRow s.db it).product_id ≠ p.id := hnone _ (hsync ▸ hmem)
      exact this hpid
    rw [heq]
    unfold cartRows
    rw [refreshCart_cart_items]
    simp only [List.filter_append]
    unfold cartRows at hempty
    rw [hempty]
    simp
  | some e =>
    -- merge path: the existing row's quantity is bumped
    have hepid : e.product_id = p.id := by
      have := List.find?_some hfind
      simpa using this
    have hemem : e ∈ s.items := List.mem_of_find?_eq_some hfind
    obtain ⟨r, hrfilter, hre⟩ : ∃ r, r ∈ s.db.cart_items.filter
        (fun it => decide (it.cart_id = cid)) ∧ joinRow s.db r = e := by
      rw [hsync] at hemem
      unfold loadItems at hemem
      exact List.mem_map.mp hemem
    obtain ⟨hrmem, hrcid'⟩ := List.mem_filter.mp hrfilter
    have hrcid : r.cart_id = cid := by simpa using hrcid'
    have hrid : r.id = e.id := by rw [← hre]; rfl
    have hrqty : r.quantity = e.quantity := by rw [← hre]; rfl
    have hrpid : r.product_id = p.id := by
      have : r.product_id = e.product_id := by rw [← hre]; rfl
      rw [this, hepid]
    have hqpos : ¬ (e.quantity + qty ≤ 0) := by
      have : 0 < e.quantity := hrqty ▸ hpos r hrmem
      omega
    have heq : (addItem s noFaults p qty).1
        = updateQuantityF { s with cartId := some cid } noFaults e.id
            (e.quantity + qty) := by
      conv_lhs => rw [hs]
      unfold addItem
      dsimp only
      rw [hfind]
    have hupd : (updateQuantityF { s with cartId := some cid } noFaults e.id
          (e.quantity + qty)).db.cart_items
        = s.db.cart_items.map
            (fun it => if it.id = e.id then { it with quantity := e.quantity + qty }
                       else it) := by
      unfold updateQuantityF
      rw [if_neg hqpos]
      rfl
    have hrrows : r ∈ cartRows s.db cid p.id := by
      unfold cartRows
      exact List.mem_filter.mpr ⟨hrmem, by simp [hrcid, hrpid]⟩
    have hsingle : cartRows s.db cid p.id = [r] := by
      refine eq_singleton_of_mem_of_length_le_one hrrows ?_
      refine length_le_one_of_nodup_const
        (f := rowKey) (b := (cid, p.id))
        (((List.filter_sublist _).map rowKey).nodup hpairs) ?_
      intro a ha
      have := (List.mem_filter.mp ha).2
      simp only [decide_eq_true_eq] at this
      unfold rowKey
      rw [this.1, this.2]
    rw [heq]
    unfold cartRows
    rw [hupd]
    have := cartRows_map_quantity s.db.cart_items e.id (e.quantity + qty) cid p.id
    rw [this]
    unfold cartRows at hsingle
    rw [hsingle]
    simp only [List.map_cons, List.map_nil, hrid, if_pos]
    simp [hrqty]

/-- Witness for C3: the spec scenario — after adding A (qty 1), adding
A again with qty 2 leaves a single CartItem row with quantity 3. -/
theorem addItem_merges_witness :
    (cartRows (addItem afterFirstAdd noFaults productA 2).1.db 1 1).map CartItem.quantity
      = [((cartRows afterFirstAdd.db 1 1).map CartItem.quantity).sum + 2] :=
  addItem_merges afterFirstAdd 1 productA 2 (by decide) (by decide) (by decide)
    (by decide) (by decide)

/-! ### C9: addItem error atomicity -/

/-- `addItem` either reports an error having changed nothing, or reports
success — the error-reporting path is only reachable from cart
resolution, never from the item insert or update. -/
theorem addItem_cases (s : ClientState) (f : RemoteFaults) (p : Product) (qty : Int) :
    addItem s f p qty = (s, false) ∨ (addItem s f p qty).2 = true := by
  cases hcart : s.cartId with
  | some cid =>
    have hs : s = { s with cartId := some cid } := by rw [← hcart]
    cases hfind : s.items.find? (fun it => decide (it.product_id = p.id)) with
    | some e =>
      right
      conv_lhs => rw [hs]
      unfold addItem
      dsimp only
      rw [hfind]
      try rfl
    | none =>
      right
      conv_lhs => rw [hs]
      unfold addItem
      dsimp only
      rw [hfind]
      try rfl
  | none =>
    have hs : s = { s with cartId := none } := by rw [← hcart]
    cases hflt : s.db.carts.filter (cartMatches s.owner) with
    | cons c t =>
      cases t with
      | nil =>
        cases hfind : s.items.find? (fun it => decide (it.product_id = p.id)) with
        | some e =>
          right
          conv_lhs => rw [hs]
          unfold addItem
          dsimp only
          rw [hflt, hfind]
          try rfl
        | none =>
          right
          conv_lhs => rw [hs]
          unfold addItem
          dsimp only
          rw [hflt, hfind]
          try rfl
      | cons c2 t2 =>
        cases hcf : f.cartInsertFails with
        | true =>
          left
          conv_lhs => rw [hs]
          unfold addItem
          dsimp only
          rw [hflt, hcf]
          rw [← hs]
          try rfl
        | false =>
          cases hfind : s.items.find? (fun it => decide (it.product_id = p.id)) with
          | some e =>
            right
            conv_lhs => rw [hs]
            unfold addItem
            dsimp only
            rw [hflt, hcf, hfind]
            try rfl
          | none =>
            right
            conv_lhs => rw [hs]
            unfold addItem
            dsimp only
            rw [hflt, hcf, hfind]
            try rfl
    | nil =>
      cases hcf : f.cartInsertFails with
      | true =>
        left
        conv_lhs => rw [hs]
        unfold addItem
        dsimp only
        rw [hflt, hcf]
        rw [← hs]
        try rfl
      | false =>
        cases hfind : s.items.find? (fun it => decide (it.product_id = p.id)) with
        | some e =>
          right
          conv_lhs => rw [hs]
          unfold addItem
          dsimp only
          rw [hflt, hcf, hfind]
          try rfl
        | none =>
          right
          conv_lhs => rw [hs]
          unfold addItem
          dsimp only
          rw [hflt, hcf, hfind]
          try rfl

/-- Counterexample to C9: with the cart already resolved and the remote
`cart_items` insert failing, `addItem` returns the state bit-for-bit
unchanged — no row created — yet reports success (the insert's error
object is never inspected). -/
theorem addItem_silent_insert_failure :
    addItem faultState insertFault productA 1 = (faultState, true) := by
  decide

/-- C9 (amended): whenever `addItem` surfaces an error, no state (store
or local) has changed; but a failure of the CartItem insert itself is
not surfaced — with a resolved cart and a product not yet in the local
list, `addItem` reports success while the store's `cart_items` are
unchanged.  Only cart-resolution failures reach the error path. -/
theorem addItem_outcomes (s : ClientState) (f : RemoteFaults) (p : Product) (qty : Int) :
    ((addItem s f p qty).2 = false → (addItem s f p qty).1 = s) ∧
    (∀ cid, s.cartId = some cid →
      s.items.find? (fun it => decide (it.product_id = p.id)) = none →
      f.itemInsertFails = true →
      (addItem s f p qty).2 = true ∧
      (addItem s f p qty).1.db.cart_items = s.db.cart_items) := by
  constructor
  · intro hfalse
    rcases addItem_cases s f p qty with hcase | hcase
    · rw [hcase]
    · rw [hcase] at hfalse
      exact Bool.noConfusion hfalse
  · intro cid hcid hfind hins
    have hs : s = { s with cartId := some cid } := by rw [← hcid]
    have heq : addItem s f p qty
        = (refreshCart { s with cartId := some cid }, true) := by
      conv_lhs => rw [hs]
      unfold addItem
      dsimp only
      rw [hfind, hins]
      rfl
    constructor
    · rw [heq]
    · rw [heq]
      exact refreshCart_cart_items { s with cartId := some cid }

/-- Witness for C9 (amended): the silent-insert-failure clause applied
to the concrete resolved state. -/
theorem addItem_outcomes_witness :
    (addItem faultState insertFault productA 1).2 = true ∧
    (addItem faultState insertFault productA 1).1.db.cart_items
      = faultState.db.cart_items :=
  (addItem_outcomes faultState insertFault productA 1).2 1 rfl rfl rfl

end NexoShop
